import Mathlib

/-!
Verification development for the SemantiSheet repository.

The repository ships a React frontend (frontend/src/App.js) for a
spreadsheet semantic-search service.  The frontend event handlers are
embedded below as pure functions on an explicit application state,
with the network side modelled as the list of requests a handler
issues and the handling of a response modelled as a state transformer
applied to an explicit response value.  The backend core (index
lifecycle manager, vector index, retrieval-synthesis pipeline) is not
part of the repository sources; those operations are modelled from
the specification text and are marked as such in their doc comments.
-/

/-! ### JavaScript string primitives

The handlers use String.prototype.trim, String.prototype.startsWith,
String.prototype.split("\n") and the `x || d` defaulting idiom; these
are embedded here over `List Char` so they compute by kernel
reduction. -/

/-- Characters removed by JavaScript String.prototype.trim (ASCII whitespace). -/
def trimChars (l : List Char) : List Char :=
  ((l.dropWhile Char.isWhitespace).reverse.dropWhile Char.isWhitespace).reverse

/-- JavaScript `s.trim()`. -/
def jsTrim (s : String) : String := String.mk (trimChars s.data)

/-- JavaScript `s.startsWith(p)`. -/
def strStarts (s p : String) : Bool := p.data.isPrefixOf s.data

/-- JavaScript `s.split("\n")` on the underlying character list. -/
def splitLines : List Char → List (List Char)
  | [] => [[]]
  | c :: rest =>
    if c = '\n' then [] :: splitLines rest
    else
      match splitLines rest with
      | [] => [[c]]
      | h :: t => (c :: h) :: t

/-- JavaScript `x || d` for an optional string field: `null`, `undefined`
and the empty string are falsy and select the default. -/
def jsOrString (o : Option String) (d : String) : String :=
  match o with
  | none => d
  | some s => if s = "" then d else s

/-- JavaScript `x || 0` for an optional numeric field. -/
def jsOrZero (o : Option Nat) : Nat := o.getD 0

/-! ### Frontend state and network model (frontend/src/App.js) -/

/-- Body of a `/status` response as read by `fetchStatus` (App.js 47-80). -/
structure StatusResponse where
  status : String
  indexed_concepts : Option Nat
  message : Option String
  example_queries : Option (List String)
deriving DecidableEq

/-- Outcome of one `fetch` of `/status`: a thrown network error, a
non-2xx response (`!res.ok`), or a parsed JSON body. -/
inductive FetchOutcome where
  | failure
  | notOk
  | ok (resp : StatusResponse)
deriving DecidableEq

/-- A network request issued by a handler. -/
inductive Request where
  | get (path : String)
  | post (path : String)
deriving DecidableEq

/-- The `useState` cells of the `App` component (App.js 10-31). -/
structure AppState where
  query : String
  result : Option String
  loading : Bool
  error : Option String
  showContext : Bool
  filesToUpload : List String
  indexing : Bool
  indexReady : Bool
  indexMessage : String
  indexedConcepts : Nat
  uploadedFiles : List String
  exampleQueries : List String
deriving DecidableEq

/-- The initial component state (the `useState` initial values, App.js 10-31). -/
def initialState : AppState where
  query := ""
  result := none
  loading := false
  error := none
  showContext := false
  filesToUpload := []
  indexing := false
  indexReady := false
  indexMessage := "Please upload spreadsheets to start."
  indexedConcepts := 0
  uploadedFiles := []
  exampleQueries :=
    ["Who is the best performer in the East region?",
     "What is the Total Revenue for Year 1?",
     "What is the Net Profit for Year 3?",
     "Which region has the highest churn?",
     "Show me the top 3 customers by revenue."]

/-- State update performed by `fetchStatus` (App.js 47-80) for a given
fetch outcome.  On `!res.ok` the function returns with no update; on a
thrown error only the index message is set; on a parsed body the
`indexed_concepts` count (defaulted to 0), the ready flag, the message
and possibly the example queries are updated. -/
def applyFetchStatus (st : AppState) (o : FetchOutcome) : AppState :=
  match o with
  | .failure => { st with indexMessage := "Unable to fetch index status." }
  | .notOk => st
  | .ok resp =>
    let count := jsOrZero resp.indexed_concepts
    let st1 := { st with indexedConcepts := count }
    let st2 :=
      if resp.status = "ok" ∧ 0 < count then
        { st1 with indexReady := true
                   indexMessage :=
                     jsOrString resp.message
                       ("Index ready with " ++ toString count ++ " concepts.")
                   indexing := false }
      else if resp.status = "indexing" then
        { st1 with indexReady := false
                   indexing := true
                   indexMessage :=
                     jsOrString resp.message
                       ("Indexing in progress... (" ++ toString count ++ " rows so far)") }
      else
        { st1 with indexReady := false
                   indexMessage := "No data indexed yet. Please upload spreadsheets." }
    match resp.example_queries with
    | some l => if l = [] then st2 else { st2 with exampleQueries := l }
    | none => st2

/-- Requests issued by one call of `fetchStatus` (App.js 47-80): a GET of
`/status`, and on a parsed body also the GET of `/files` from the nested
`fetchFiles()` call. -/
def fetchStatusRequests (o : FetchOutcome) : List Request :=
  match o with
  | .failure => [.get "/status"]
  | .notOk => [.get "/status"]
  | .ok _ => [.get "/status", .get "/files"]

/-- The mount effect (App.js 82-85): the `useEffect` with empty
dependency list calls `fetchStatus()` and nothing else. -/
def mountEffect (st : AppState) (o : FetchOutcome) : AppState × List Request :=
  (applyFetchStatus st o, fetchStatusRequests o)

/-- Synchronous prefix of `handleUploadAndIndex` (App.js 94-134): with no
selected file it sets an error and returns; otherwise it clears error and
result, enters the indexing state and issues the POST of `/index`. -/
def handleUploadAndIndex (st : AppState) : AppState × List Request :=
  if st.filesToUpload = [] then
    ({ st with error := some "Please select at least one Excel file (.xlsx)." }, [])
  else
    ({ st with error := none
               result := none
               indexing := true
               indexReady := false
               indexMessage := "Uploading files and starting indexing..." },
     [.post "/index"])

/-- Disabled condition of the Upload & Index button (App.js 215-222). -/
def uploadButtonDisabled (st : AppState) : Bool :=
  st.indexing || st.filesToUpload.isEmpty

/-- Synchronous prefix of `handleSearch` (App.js 138-166): a query that is
empty after trimming returns immediately with no request; otherwise the
loading state is entered and the POST of `/search` is issued. -/
def handleSearch (st : AppState) : AppState × List Request :=
  if jsTrim st.query = "" then (st, [])
  else
    ({ st with loading := true, error := none, result := none },
     [.post "/search"])

/-! ### renderMarkdown (App.js 168-186) -/

/-- Scan for the closing `**` of the regex `\*\*(.*?)\*\*`: returns the
text before the first closing `**` and the remainder, failing on a
newline (JavaScript `.` does not match a newline) or end of input. -/
def findClose : List Char → Option (List Char × List Char)
  | [] => none
  | '*' :: '*' :: rest => some ([], rest)
  | c :: rest =>
    if c = '\n' then none
    else (findClose rest).map (fun p => (c :: p.1, p.2))

/-- Fuelled scan implementing the global replace of `/\*\*(.*?)\*\*/g`
with `<strong>$1</strong>`: at an opening `**` with a closing `**` on the
same line, emit the tag pair; otherwise advance one character, as the
regex engine does when the match attempt at a position fails. -/
def replaceBoldAux : Nat → List Char → List Char
  | 0, l => l
  | _, [] => []
  | fuel + 1, '*' :: '*' :: rest =>
    match findClose rest with
    | some p =>
      "<strong>".data ++ p.1 ++ "</strong>".data ++ replaceBoldAux fuel p.2
    | none => '*' :: replaceBoldAux fuel ('*' :: rest)
  | fuel + 1, c :: rest => c :: replaceBoldAux fuel rest

/-- The bold replacement of App.js line 170.  The fuel equals the input
length, which bounds the number of scan steps since every step consumes
at least one character. -/
def replaceBold (l : List Char) : List Char := replaceBoldAux l.length l

/-- JavaScript `line.trim().replace(/^\* /, "<li>")` (App.js 178). -/
def stripLeadingStar (t : String) : String :=
  if strStarts t "* " then "<li>" ++ String.mk (t.data.drop 2) else t

/-- One step of the `lines.forEach` loop of App.js 175-183, accumulating
the appended HTML fragments and the `inList` flag. -/
def mdStep (acc : List String × Bool) (line : String) : List String × Bool :=
  if strStarts (jsTrim line) "*" then
    ((if acc.2 then acc.1 else acc.1 ++ ["<ul>"]) ++
       [stripLeadingStar (jsTrim line) ++ "</li>"],
     true)
  else
    let closed := if acc.2 then acc.1 ++ ["</ul>"] else acc.1
    (if jsTrim line = "" then closed else closed ++ ["<p>" ++ line ++ "</p>"],
     false)

/-- The HTML fragments appended by `renderMarkdown` (App.js 170-184) in
order: bold replacement, split into lines, the forEach loop, and the
final close of a still-open list. -/
def mdFragments (t : String) : List String :=
  let lines := (splitLines (replaceBold t.data)).map String.mk
  let r := lines.foldl mdStep ([], false)
  if r.2 then r.1 ++ ["</ul>"] else r.1

/-- `renderMarkdown` (App.js 168-186): `null` for a missing or empty
input (JavaScript `!markdownText`), otherwise the concatenated HTML. -/
def renderMarkdown (t : Option String) : Option String :=
  match t with
  | none => none
  | some s => if s = "" then none else some (String.join (mdFragments s))

/-! ### Index lifecycle manager

The backend that owns the index state is not among the repository
sources (only its frontend caller is), so the operations below are
modelled from the specification. -/

/-- Modelled from the spec: the Index State status values of section 3
(the backend owning them is not in the sources), with
`empty -> indexing -> \x7bready | error\x7d` transitions. -/
inductive IndexStatus where
  | empty
  | indexing
  | ready
  | error
deriving DecidableEq

/-- Modelled from the spec: the Index State of section 3 — status,
progress count, concept count and message (backend not in the sources). -/
structure LifecycleState where
  status : IndexStatus
  progressCount : Nat
  conceptCount : Nat
  message : String
deriving DecidableEq

/-- Modelled from the spec: error kinds of the lifecycle manager
(section 7; backend not in the sources). -/
inductive LifecycleError where
  | alreadyIndexing
deriving DecidableEq

/-- Modelled from the spec: `start_ingest(files)` of section 4.4 (backend
not in the sources) — rejected with `AlreadyIndexingError` when the
status is `indexing`, leaving the state unchanged; otherwise moves to
`indexing` with `progress_count = 0`. -/
def startIngest (s : LifecycleState) : Except LifecycleError Unit × LifecycleState :=
  if s.status = .indexing then (.error .alreadyIndexing, s)
  else (.ok (), { s with status := .indexing, progressCount := 0 })

/-- Modelled from the spec: `complete(total_count)` of section 4.4
(backend not in the sources) — moves to `ready` when `total_count > 0`,
else to `error` with message "no indexable concepts found". -/
def complete (total : Nat) (s : LifecycleState) : LifecycleState :=
  if 0 < total then
    { s with status := .ready
             conceptCount := total
             message := "Index ready with " ++ toString total ++ " concepts." }
  else
    { s with status := .error, message := "no indexable concepts found" }

/-- Modelled from the spec: the snapshot returned by `status()`
(sections 4.4 and 5; backend not in the sources). -/
structure StatusSnapshot where
  status : IndexStatus
  progressCount : Nat
  conceptCount : Nat
  message : String
deriving DecidableEq

/-- Modelled from the spec: `status()` (section 5; backend not in the
sources) — a pure, non-blocking read returning the current snapshot and
leaving the state untouched. -/
def statusOp (s : LifecycleState) : StatusSnapshot × LifecycleState :=
  ({ status := s.status
     progressCount := s.progressCount
     conceptCount := s.conceptCount
     message := s.message }, s)

/-! ### Vector index -/

/-- Modelled from the spec: a Concept (named SheetConcept here; Lean already uses the name Concept), the atomic indexable unit of
section 3 (backend not in the sources). -/
structure SheetConcept where
  id : Nat
  sheet : String
  metric : String
  snippet : String
  embedding : List ℚ
deriving DecidableEq

/-- Modelled from the spec: the retrieval order of `query(vector, k)` in
section 4.3 (backend not in the sources) — `a` precedes `b` when `a`
scores strictly higher under the similarity metric, or scores equally
and was inserted no later. -/
def rankLE (sim : List ℚ → List ℚ → ℚ) (v : List ℚ) (a b : Nat × SheetConcept) : Prop :=
  sim v b.2.embedding < sim v a.2.embedding ∨
    (sim v a.2.embedding = sim v b.2.embedding ∧ a.1 ≤ b.1)

instance instDecidableRankLE (sim : List ℚ → List ℚ → ℚ) (v : List ℚ) :
    DecidableRel (rankLE sim v) := fun a b => by
  unfold rankLE; infer_instance

/-- Modelled from the spec: `query(vector, k)` of section 4.3 (backend
not in the sources), keeping each concept paired with its insertion
position — concepts sorted by descending similarity with ties broken by
earliest insertion, truncated to `k`. -/
def queryRanked (index : List SheetConcept) (sim : List ℚ → List ℚ → ℚ)
    (v : List ℚ) (k : Nat) : List (Nat × SheetConcept) :=
  (List.insertionSort (rankLE sim v) index.enum).take k

/-- Modelled from the spec: `query(vector, k) -> ordered sequence of
(concept, score)` of section 4.3 (backend not in the sources). -/
def queryIndex (index : List SheetConcept) (sim : List ℚ → List ℚ → ℚ)
    (v : List ℚ) (k : Nat) : List (SheetConcept × ℚ) :=
  (queryRanked index sim v k).map (fun p => (p.2, sim v p.2.embedding))

/-- Dot product, the shape of a concrete similarity metric. -/
def dotSim (a b : List ℚ) : ℚ :=
  (List.zip a b).foldl (fun acc p => acc + p.1 * p.2) 0

/-- A projection similarity metric (the first coordinate of the stored
embedding), used to instantiate the retrieval theorems on concrete
inputs: unlike rational arithmetic it evaluates by kernel reduction. -/
def headSim (_q e : List ℚ) : ℚ := e.headD 0

/-! ### Retrieval-synthesis pipeline -/

/-- Modelled from the spec: error kinds of `answer(query)` in sections
4.5 and 7 (backend not in the sources). -/
inductive AnswerError where
  | invalidQuery
  | indexNotReady
  | synthesisFailed
deriving DecidableEq

/-- Modelled from the spec: one call to an external adapter (an embedding
request or a reasoning request), recorded so call counts are provable
(section 8; backend not in the sources). -/
inductive AdapterCall where
  | embedCall (text : String)
  | reasonCall (prompt : String)
deriving DecidableEq

/-- Modelled from the spec: the structured answer payload
`\x7bquery, result, context\x7d` of section 4.5, with context entries
`(sheet, metric, snippet)` (backend not in the sources). -/
structure AnswerPayload where
  query : String
  result : String
  context : List (String × String × String)
deriving DecidableEq

/-- Modelled from the spec: the grounding prompt of section 4.5 step 5,
enumerating each retrieved concept and instructing the reasoning service
to answer strictly from the supplied evidence (backend not in the
sources). -/
def buildPrompt (q : String) (ctx : List SheetConcept) : String :=
  "Answer strictly from the supplied evidence; do not fabricate figures absent from it.\n" ++
    String.join (ctx.map (fun c =>
      c.sheet ++ " | " ++ c.metric ++ " | " ++ c.snippet ++ "\n")) ++
    "Question: " ++ q

/-- Modelled from the spec: `answer(query)` of section 4.5 (backend not
in the sources), following the numbered algorithm — reject an
empty/whitespace query, then require `ready` status, then embed,
retrieve top-k, build the grounding prompt and invoke the reasoning
service.  The second component records every adapter call made. -/
def answer (embedFn : String → List ℚ) (reasonFn : String → Option String)
    (sim : List ℚ → List ℚ → ℚ) (k : Nat) (ls : LifecycleState)
    (index : List SheetConcept) (q : String) :
    Except AnswerError AnswerPayload × List AdapterCall :=
  if jsTrim q = "" then (.error .invalidQuery, [])
  else if ls.status ≠ .ready then (.error .indexNotReady, [])
  else
    let v := embedFn q
    let top := queryIndex index sim v k
    let ctx := top.map (fun p => p.1)
    let prompt := buildPrompt q ctx
    match reasonFn prompt with
    | none => (.error .synthesisFailed, [.embedCall q, .reasonCall prompt])
    | some text =>
      (.ok { query := q
             result := text
             context := ctx.map (fun c => (c.sheet, c.metric, c.snippet)) },
       [.embedCall q, .reasonCall prompt])

/-! ## Theorems -/

/-- C1: On application restart (page reload) with a previously completed
ready index generation, the reported status is restored to ready with
the correct concept count: the mount effect issues no reset request for
any fetch outcome, and processing a persisted ready status response
(status "ok" with a positive concept count) marks the index ready with
that count and no indexing spinner. -/
theorem restart_restores_ready_without_reset :
    ∀ (st : AppState) (o : FetchOutcome) (n : Nat) (msg : Option String)
      (exq : Option (List String)),
    Request.post "/reset" ∉ (mountEffect st o).2 ∧
    ((mountEffect st (.ok ⟨"ok", some (n + 1), msg, exq⟩)).1.indexReady = true ∧
     (mountEffect st (.ok ⟨"ok", some (n + 1), msg, exq⟩)).1.indexedConcepts = n + 1 ∧
     (mountEffect st (.ok ⟨"ok", some (n + 1), msg, exq⟩)).1.indexing = false) := by
  intro st o n msg exq
  constructor
  · cases o <;> simp [mountEffect, fetchStatusRequests]
  · cases exq with
    | none => simp [mountEffect, applyFetchStatus, jsOrZero]
    | some l =>
      by_cases hl : l = [] <;>
        simp [mountEffect, applyFetchStatus, jsOrZero, hl]

/-- Witness for C1 at a concrete state and response. -/
theorem restart_restores_ready_without_reset_witness :
    Request.post "/reset" ∉ (mountEffect initialState FetchOutcome.failure).2 ∧
    (mountEffect initialState (.ok ⟨"ok", some (2 + 1), none, none⟩)).1.indexReady = true :=
  ⟨(restart_restores_ready_without_reset initialState .failure 2 none none).1,
   (restart_restores_ready_without_reset initialState .failure 2 none none).2.1⟩

/-- C4: At most one ingest job is in the indexing state at any time:
issuing ingest while the status is indexing always fails with
`AlreadyIndexingError` and never mutates the Index State; the frontend
Upload & Index button is likewise disabled while indexing. -/
theorem ingest_exclusive :
    ∀ (s : LifecycleState) (st : AppState),
    s.status = .indexing →
    (startIngest s = (.error .alreadyIndexing, s) ∧
     uploadButtonDisabled { st with indexing := true } = true) := by
  intro s st h
  exact ⟨by simp [startIngest, h], by simp [uploadButtonDisabled]⟩

/-- Witness for C4 at a concrete indexing state. -/
theorem ingest_exclusive_witness :
    startIngest ⟨.indexing, 0, 0, ""⟩ = (.error .alreadyIndexing, ⟨.indexing, 0, 0, ""⟩) :=
  (ingest_exclusive ⟨.indexing, 0, 0, ""⟩ initialState rfl).1

/-- C5: `complete(total_count)` moves the index state to ready if and
only if the count is positive; a zero count yields the error state with
message "no indexable concepts found", and a ready state always carries
a positive concept count. -/
theorem complete_ready_iff_positive :
    ∀ (n : Nat) (s : LifecycleState),
    ((complete n s).status = .ready ↔ 0 < n) ∧
    (complete 0 s).status = .error ∧
    (complete 0 s).message = "no indexable concepts found" ∧
    ((complete n s).status = .ready →
      (complete n s).conceptCount = n ∧ 0 < (complete n s).conceptCount) := by
  intro n s
  by_cases h : 0 < n <;> simp [complete, h]

/-- Witness for C5 at concrete counts. -/
theorem complete_ready_iff_positive_witness :
    (complete 2 ⟨.indexing, 0, 0, ""⟩).status = .ready ∧
    (complete 0 ⟨.indexing, 0, 0, ""⟩).status = .error :=
  ⟨((complete_ready_iff_positive 2 ⟨.indexing, 0, 0, ""⟩).1).mpr (by decide),
   (complete_ready_iff_positive 0 ⟨.indexing, 0, 0, ""⟩).2.1⟩

/-- C6: An empty or whitespace-only query is rejected with
`InvalidQueryError` before any embedding or retrieval is attempted (no
adapter call is recorded), and the frontend `handleSearch` likewise
returns without issuing any request. -/
theorem empty_query_rejected :
    ∀ (ef : String → List ℚ) (rf : String → Option String)
      (sim : List ℚ → List ℚ → ℚ) (k : Nat) (ls : LifecycleState)
      (index : List SheetConcept) (st : AppState) (q : String),
    jsTrim q = "" →
    (answer ef rf sim k ls index q = (.error .invalidQuery, []) ∧
     handleSearch { st with query := q } = ({ st with query := q }, [])) := by
  intro ef rf sim k ls index st q h
  exact ⟨by simp [answer, h], by simp [handleSearch, h]⟩

/-- Witness for C6 at the whitespace query " ". -/
theorem empty_query_rejected_witness :
    answer (fun _ => []) (fun _ => none) headSim 5 ⟨.ready, 0, 1, ""⟩ [] " " =
      (.error .invalidQuery, []) :=
  (empty_query_rejected (fun _ => []) (fun _ => none) headSim 5 ⟨.ready, 0, 1, ""⟩
    [] initialState " " (by decide)).1

/-- C7: Repeated `status()` calls without an intervening ingest or reset
return an identical snapshot and change no indexed state, and the
frontend processing of one status response is idempotent on the client
state. -/
theorem status_idempotent_pure_read :
    ∀ (s : LifecycleState) (st : AppState) (o : FetchOutcome),
    (statusOp s).2 = s ∧
    (statusOp (statusOp s).2).1 = (statusOp s).1 ∧
    applyFetchStatus (applyFetchStatus st o) o = applyFetchStatus st o := by
  intro s st o
  refine ⟨rfl, rfl, ?_⟩
  cases o with
  | failure => rfl
  | notOk => rfl
  | ok resp =>
    obtain ⟨s1, ic, m, ex⟩ := resp
    cases ex with
    | none =>
      simp only [applyFetchStatus, jsOrZero]
      split_ifs <;> rfl
    | some l =>
      by_cases hl : l = [] <;>
        · simp only [applyFetchStatus, jsOrZero, hl]
          split_ifs <;> simp [hl]

/-- C9: `fetchStatus` marks the index ready exactly when the response
status is "ok" and the reported concept count is positive; a response
with no `indexed_concepts` field is treated as count 0 and never marks
the index ready. -/
theorem fetchStatus_ready_condition :
    ∀ (st : AppState) (resp : StatusResponse),
    (applyFetchStatus st (.ok resp)).indexReady =
      decide (resp.status = "ok" ∧ 0 < jsOrZero resp.indexed_concepts) ∧
    (applyFetchStatus st (.ok { resp with indexed_concepts := none })).indexReady = false := by
  intro st resp
  obtain ⟨s1, ic, m, ex⟩ := resp
  constructor
  · by_cases h1 : s1 = "ok" ∧ 0 < jsOrZero ic
    · cases ex with
      | none => simp [applyFetchStatus, h1]
      | some l => by_cases hl : l = [] <;> simp [applyFetchStatus, h1, hl]
    · by_cases h2 : s1 = "indexing" <;>
      · cases ex with
        | none => simp [applyFetchStatus, h1, h2]
        | some l => by_cases hl : l = [] <;> simp [applyFetchStatus, h1, h2, hl]
  · by_cases h2 : s1 = "indexing" <;>
    · cases ex with
      | none => simp [applyFetchStatus, jsOrZero, h2]
      | some l => by_cases hl : l = [] <;> simp [applyFetchStatus, jsOrZero, h2, hl]

/-- C10: `handleUploadAndIndex` invoked with an empty file selection
sets the error message asking for at least one file and returns without
issuing any network request and without changing the indexing or ready
state. -/
theorem empty_upload_selection_no_request :
    ∀ st : AppState,
    (handleUploadAndIndex { st with filesToUpload := [] }).2 = [] ∧
    (handleUploadAndIndex { st with filesToUpload := [] }).1.indexing = st.indexing ∧
    (handleUploadAndIndex { st with filesToUpload := [] }).1.error =
      some "Please select at least one Excel file (.xlsx)." ∧
    (handleUploadAndIndex { st with filesToUpload := [] }).1.indexReady = st.indexReady := by
  intro st
  simp [handleUploadAndIndex]

/-- C2 counterexample: a whitespace-only query issued while the status
is indexing (hence not ready) fails with `InvalidQueryError`, not
`IndexNotReadyError`, because the empty-query check of section 4.5 runs
first. -/
theorem notReady_query_counterexample :
    IndexStatus.indexing ≠ IndexStatus.ready ∧
    (answer (fun _ => []) (fun _ => none) headSim 5 ⟨.indexing, 0, 0, ""⟩ [] " ").1 ≠
      Except.error AnswerError.indexNotReady := by
  refine ⟨by decide, ?_⟩
  intro h
  rw [show (answer (fun _ => []) (fun _ => none) headSim 5 ⟨.indexing, 0, 0, ""⟩ [] " ").1 =
      Except.error AnswerError.invalidQuery from rfl] at h
  simp at h

/-- C2 (amended): every query that is non-empty after trimming, issued
while the index status is not ready, fails with `IndexNotReadyError`
and performs no embedding call and no reasoning-service call. -/
theorem notReady_nonempty_query_fails_fast :
    ∀ (ef : String → List ℚ) (rf : String → Option String)
      (sim : List ℚ → List ℚ → ℚ) (k : Nat) (ls : LifecycleState)
      (index : List SheetConcept) (q : String),
    ls.status ≠ .ready → jsTrim q ≠ "" →
    answer ef rf sim k ls index q = (.error .indexNotReady, []) := by
  intro ef rf sim k ls index q hs hq
  simp [answer, hq, hs]

/-- Witness for amended C2 at a concrete non-ready state and query. -/
theorem notReady_nonempty_query_fails_fast_witness :
    answer (fun _ => []) (fun _ => none) headSim 5 ⟨.empty, 0, 0, ""⟩ [] "q" =
      (.error .indexNotReady, []) :=
  notReady_nonempty_query_fails_fast (fun _ => []) (fun _ => none) headSim 5
    ⟨.empty, 0, 0, ""⟩ [] "q" (by decide) (by decide)

/-- A paragraph fragment has length 7 plus the line length. -/
theorem p_frag_length (l : String) : ("<p>" ++ l ++ "</p>").length = l.length + 7 := by
  have h1 : ("<p>" : String).length = 3 := rfl
  have h2 : ("</p>" : String).length = 4 := rfl
  simp [String.length_append, h1, h2]
  omega

/-- A list-item fragment has length 5 plus the stripped-line length. -/
theorem li_frag_length (t : String) :
    (stripLeadingStar t ++ "</li>").length = (stripLeadingStar t).length + 5 := by
  have h2 : ("</li>" : String).length = 5 := rfl
  simp [String.length_append, h2]

/-- A line that starts with a star strips to a non-empty fragment. -/
theorem stripLeadingStar_pos (t : String) (h : strStarts t "*" = true) :
    0 < (stripLeadingStar t).length := by
  unfold stripLeadingStar
  split
  · have h4 : ("<li>" : String).length = 4 := rfl
    simp [String.length_append, h4]
  · cases t with
    | mk l =>
      cases l with
      | nil => simp [strStarts, List.isPrefixOf] at h
      | cons c cs => simp [String.length]

/-- Strings of different length differ. -/
theorem ne_of_length_ne {a b : String} (h : a.length ≠ b.length) : a ≠ b :=
  fun e => h (e ▸ rfl)

/-- One forEach step preserves the list-balance invariant: the number of
opened `<ul>` fragments exceeds the closed ones exactly by the `inList`
flag. -/
theorem mdStep_count (acc : List String × Bool) (line : String)
    (h : acc.1.count "<ul>" = acc.1.count "</ul>" + (if acc.2 then 1 else 0)) :
    (mdStep acc line).1.count "<ul>" =
      (mdStep acc line).1.count "</ul>" + (if (mdStep acc line).2 then 1 else 0) := by
  obtain ⟨frags, inList⟩ := acc
  have hul : ("<ul>" : String).length = 4 := rfl
  have hulc : ("</ul>" : String).length = 5 := rfl
  have hne3 : ("<ul>" : String) ≠ "</ul>" := by decide
  have hne3s : ("</ul>" : String) ≠ "<ul>" := by decide
  unfold mdStep
  cases hb : strStarts (jsTrim line) "*" with
  | true =>
    have hpos := stripLeadingStar_pos (jsTrim line) hb
    have hne1 : stripLeadingStar (jsTrim line) ++ "</li>" ≠ "<ul>" := by
      apply ne_of_length_ne
      rw [li_frag_length, hul]
      omega
    have hne2 : stripLeadingStar (jsTrim line) ++ "</li>" ≠ "</ul>" := by
      apply ne_of_length_ne
      rw [li_frag_length, hulc]
      omega
    cases inList <;>
      simp_all [List.count_append, List.count_singleton, hne1, hne2, hne3, hne3s]
  | false =>
    have hne1 : "<p>" ++ line ++ "</p>" ≠ "<ul>" := by
      apply ne_of_length_ne
      rw [p_frag_length, hul]
      omega
    have hne2 : "<p>" ++ line ++ "</p>" ≠ "</ul>" := by
      apply ne_of_length_ne
      rw [p_frag_length, hulc]
      omega
    by_cases hq : jsTrim line = "" <;>
      cases inList <;>
      simp_all [List.count_append, List.count_singleton, hne1, hne2, hne3, hne3s]

/-- The forEach fold preserves the list-balance invariant. -/
theorem foldl_mdStep_count :
    ∀ (lines : List String) (acc : List String × Bool),
    acc.1.count "<ul>" = acc.1.count "</ul>" + (if acc.2 then 1 else 0) →
    (lines.foldl mdStep acc).1.count "<ul>" =
      (lines.foldl mdStep acc).1.count "</ul>" +
        (if (lines.foldl mdStep acc).2 then 1 else 0) := by
  intro lines
  induction lines with
  | nil => intro acc h; exact h
  | cons l ls ih => intro acc h; exact ih _ (mdStep_count acc l h)

/-- C8: for every input string, `renderMarkdown` emits as many closing
`</ul>` fragments as opening `<ul>` fragments (a list still open at the
final line is closed by the trailing fixup), and it returns null for a
missing or empty input. -/
theorem renderMarkdown_closes_lists :
    ∀ t : String,
    (mdFragments t).count "<ul>" = (mdFragments t).count "</ul>" ∧
    renderMarkdown none = none ∧
    renderMarkdown (some "") = none := by
  intro t
  refine ⟨?_, rfl, rfl⟩
  have h := foldl_mdStep_count ((splitLines (replaceBold t.data)).map String.mk)
    ([], false) (by simp)
  have hne3s : ("</ul>" : String) ≠ "<ul>" := by decide
  simp only [mdFragments]
  rcases hfold : List.foldl mdStep ([], false)
    ((splitLines (replaceBold t.data)).map String.mk) with ⟨frags, flag⟩
  cases flag <;>
    simp_all [List.count_append, List.count_singleton, hne3s]

/-- The retrieval order is transitive. -/
theorem rankLE_trans (sim : List ℚ → List ℚ → ℚ) (v : List ℚ) :
    ∀ a b c : Nat × SheetConcept,
    rankLE sim v a b → rankLE sim v b c → rankLE sim v a c := by
  intro a b c hab hbc
  rcases hab with h1 | ⟨h1, h2⟩ <;> rcases hbc with h3 | ⟨h3, h4⟩
  · exact Or.inl (lt_trans h3 h1)
  · exact Or.inl (by rw [← h3]; exact h1)
  · exact Or.inl (by rw [h1]; exact h3)
  · exact Or.inr ⟨h1.trans h3, le_trans h2 h4⟩

/-- The retrieval order is total. -/
theorem rankLE_total (sim : List ℚ → List ℚ → ℚ) (v : List ℚ) :
    ∀ a b : Nat × SheetConcept, rankLE sim v a b ∨ rankLE sim v b a := by
  intro a b
  rcases lt_trichotomy (sim v a.2.embedding) (sim v b.2.embedding) with h | h | h
  · exact Or.inr (Or.inl h)
  · rcases Nat.le_total a.1 b.1 with h2 | h2
    · exact Or.inl (Or.inr ⟨h, h2⟩)
    · exact Or.inr (Or.inr ⟨h.symm, h2⟩)
  · exact Or.inl (Or.inl h)

/-- C3: `query(vector, k)` returns at most `k` results, each present in
the index and scored by the similarity metric, ordered by strictly
descending similarity with ties broken by insertion order (the
earlier-indexed concept wins, so retrieval is deterministic); requesting
`k` at least the index size returns all concepts. -/
theorem query_topk_deterministic :
    ∀ (index : List SheetConcept) (sim : List ℚ → List ℚ → ℚ) (v : List ℚ) (k : Nat),
    (queryIndex index sim v k).length ≤ k ∧
    (∀ p ∈ queryIndex index sim v k, p.1 ∈ index ∧ p.2 = sim v p.1.embedding) ∧
    (queryRanked index sim v k).Pairwise (fun a b =>
      sim v b.2.embedding < sim v a.2.embedding ∨
        (sim v a.2.embedding = sim v b.2.embedding ∧ a.1 < b.1)) ∧
    (∀ p ∈ queryRanked index sim v k, index[p.1]? = some p.2) ∧
    (index.length ≤ k → ((queryIndex index sim v k).map Prod.fst).Perm index) := by
  intro index sim v k
  haveI : IsTrans (Nat × SheetConcept) (rankLE sim v) := ⟨rankLE_trans sim v⟩
  haveI : IsTotal (Nat × SheetConcept) (rankLE sim v) := ⟨rankLE_total sim v⟩
  have hsorted : (List.insertionSort (rankLE sim v) index.enum).Pairwise (rankLE sim v) :=
    List.sorted_insertionSort (rankLE sim v) index.enum
  have hperm : (List.insertionSort (rankLE sim v) index.enum).Perm index.enum :=
    List.perm_insertionSort (rankLE sim v) index.enum
  have hmapfst : (List.map Prod.fst (List.insertionSort (rankLE sim v) index.enum)).Perm
      (List.range index.length) := by
    have h1 := hperm.map Prod.fst
    rwa [List.enum_map_fst] at h1
  have hnodup : (List.map Prod.fst (List.insertionSort (rankLE sim v) index.enum)).Nodup :=
    hmapfst.symm.nodup (List.nodup_range index.length)
  have hnefst : (List.insertionSort (rankLE sim v) index.enum).Pairwise
      (fun a b => a.1 ≠ b.1) := by
    have h2 : (List.map Prod.fst (List.insertionSort (rankLE sim v) index.enum)).Pairwise
        (fun a b => a ≠ b) := hnodup
    exact List.pairwise_map.mp h2
  have hstrict : (List.insertionSort (rankLE sim v) index.enum).Pairwise
      (fun a b => sim v b.2.embedding < sim v a.2.embedding ∨
        (sim v a.2.embedding = sim v b.2.embedding ∧ a.1 < b.1)) := by
    refine (hsorted.and hnefst).imp ?_
    intro a b hab
    rcases hab with ⟨h1 | ⟨h1, h2⟩, hne⟩
    · exact Or.inl h1
    · exact Or.inr ⟨h1, lt_of_le_of_ne h2 hne⟩
  have hrankedmem : ∀ p ∈ queryRanked index sim v k, index[p.1]? = some p.2 := by
    intro p hp
    have hp2 : p ∈ List.insertionSort (rankLE sim v) index.enum :=
      List.Sublist.mem hp (List.take_sublist k _)
    have hp3 : p ∈ index.enum := hperm.mem_iff.mp hp2
    obtain ⟨i, c⟩ := p
    obtain ⟨hlt, hcx⟩ := List.mem_enum hp3
    exact List.getElem?_eq_some_iff.mpr ⟨hlt, hcx.symm⟩
  refine ⟨?_, ?_, ?_, hrankedmem, ?_⟩
  · simp only [queryIndex, queryRanked, List.length_map, List.length_take]
    exact min_le_left k _
  · intro p hp
    simp only [queryIndex] at hp
    obtain ⟨q, hq, rfl⟩ := List.mem_map.mp hp
    refine ⟨?_, rfl⟩
    have h3 := hrankedmem q hq
    exact List.getElem?_mem h3
  · exact List.Pairwise.sublist (List.take_sublist k _) hstrict
  · intro hk
    have hlen : (List.insertionSort (rankLE sim v) index.enum).length = index.length := by
      rw [hperm.length_eq, List.enum_length]
    have htake : queryRanked index sim v k = List.insertionSort (rankLE sim v) index.enum := by
      unfold queryRanked
      apply List.take_of_length_le
      rw [hlen]
      exact hk
    have hcomp : (Prod.fst ∘ fun p : Nat × SheetConcept =>
        (p.2, sim v p.2.embedding)) = Prod.snd := rfl
    have h5 := hperm.map Prod.snd
    rw [List.enum_map_snd] at h5
    simp only [queryIndex, List.map_map, hcomp, htake]
    exact h5

/-- Witness for C3: retrieval over a three-concept index with one score
tie, with k exceeding the index size, returns all concepts. -/
theorem query_topk_deterministic_witness :
    ([(⟨0, "S", "m1", "s1", [3]⟩ : SheetConcept), ⟨1, "S", "m2", "s2", [3]⟩,
        ⟨2, "S", "m3", "s3", [5]⟩].length ≤ 5) ∧
    ((queryIndex [⟨0, "S", "m1", "s1", [3]⟩, ⟨1, "S", "m2", "s2", [3]⟩,
        ⟨2, "S", "m3", "s3", [5]⟩] headSim [1] 5).map Prod.fst).Perm
      [⟨0, "S", "m1", "s1", [3]⟩, ⟨1, "S", "m2", "s2", [3]⟩, ⟨2, "S", "m3", "s3", [5]⟩] :=
  ⟨by decide,
   (query_topk_deterministic [⟨0, "S", "m1", "s1", [3]⟩, ⟨1, "S", "m2", "s2", [3]⟩,
      ⟨2, "S", "m3", "s3", [5]⟩] headSim [1] 5).2.2.2.2 (by decide)⟩
